import Mathlib

/-!
Verification development for the rental-houses scraper repository.

The Python sources are shallowly embedded as executable Lean definitions:

* `02_code/helpers/addresses.py`  — `extract_zipcode`, `remove_keywords`,
  `parse_address_str` (the geocoder itself is an external collaborator and is
  modelled as a function-valued parameter).
* `02_code/distance/calculators.py` — `calculate_distance`,
  `calculate_distance_addrs` with its CSV distance cache; the cache file is
  modelled as an explicit `Option (List CacheRow)` state threaded through the
  call, and the geopy distance formulas are collaborator parameters.
* `02_code/scraper/scraper_core.py` — `Scraper.scrape_page`,
  `Scraper.get_next_button_el`, `Scraper.click_next_button`,
  `Scraper.scrape_all_pages`; the selenium DOM is modelled as explicit data
  (elements with text / sub-element lookup), navigation outcomes as an
  environment function from attempt index to observed outcome, and the
  unbounded `while` loop of `scrape_all_pages` with a fuel parameter
  (`none` = the loop was still running after `fuel` iterations).

Character classes follow the ASCII reading of the Python regexes
(`[0-9]`, `[A-Z]`, `\s`); exceptions (`RuntimeError`, `AssertionError`,
`KeyError`) are modelled with `Except`/sum results.
-/

/-- ASCII whitespace, the characters Python's `\s` matches on ASCII text:
space, tab, newline, carriage return, vertical tab, form feed. -/
def isPySpace (c : Char) : Bool :=
  c.toNat = 32 || c.toNat = 9 || c.toNat = 10 || c.toNat = 13 ||
  c.toNat = 11 || c.toNat = 12

/-- The regex class `[0-9]`. -/
def isDigitAscii (c : Char) : Bool :=
  48 ≤ c.toNat && c.toNat ≤ 57

/-- The regex class `[A-Z]`. -/
def isUpperAscii (c : Char) : Bool :=
  65 ≤ c.toNat && c.toNat ≤ 90

/-- One anchored attempt of the pattern `[0-9]{4}\s*?[A-Z]{2}` at the head of
the character list, returning the matched characters.  Because `\s` and
`[A-Z]` are disjoint, the lazy `\s*?` is forced to consume exactly the run of
whitespace separating the digits from the two letters. -/
def matchZipAt : List Char → Option (List Char)
  | d1 :: d2 :: d3 :: d4 :: rest =>
    if isDigitAscii d1 && isDigitAscii d2 && isDigitAscii d3 && isDigitAscii d4 then
      match rest.dropWhile isPySpace with
      | u1 :: u2 :: _ =>
        if isUpperAscii u1 && isUpperAscii u2 then
          some (d1 :: d2 :: d3 :: d4 :: (rest.takeWhile isPySpace ++ [u1, u2]))
        else none
      | _ => none
    else none
  | _ => none

/-- Leftmost match of the zipcode pattern: the regex engine tries each start
position from the left; `re.findall(...)[0]` is the first such match. -/
def findFirstZip : List Char → Option (List Char)
  | [] => none
  | c :: rest =>
    match matchZipAt (c :: rest) with
    | some m => some m
    | none => findFirstZip rest

/-- `helpers/addresses.py, extract_zipcode`: find the first occurrence of the
pattern `[0-9]{4}\s*?[A-Z]{2}` and return it with all whitespace removed
(`re.sub(r"\s+", "", zipcode)`); `none` models Python's `return None`. -/
def extract_zipcode (s : String) : Option String :=
  match findFirstZip s.data with
  | some zipcode => some (String.mk (zipcode.filter (fun c => !isPySpace c)))
  | none => none

/-- ASCII lower-casing, for `re.I` matching of the ASCII keywords. -/
def lowerAscii (c : Char) : Char :=
  if 65 ≤ c.toNat && c.toNat ≤ 90 then Char.ofNat (c.toNat + 32) else c

/-- Case-insensitive "the text starts with the (lowercase) keyword". -/
def startsWithCI : List Char → List Char → Bool
  | [], _ => true
  | _ :: _, [] => false
  | k :: kr, c :: cr => lowerAscii c == k && startsWithCI kr cr

/-- `re.sub(keyword, '', s, flags=re.I)` for a nonempty literal keyword:
scan left to right, delete each (non-overlapping) case-insensitive
occurrence.  The `skip` counter carries the number of still-to-delete
characters of a match already begun. -/
def re_sub_ci (kw : List Char) : List Char → Nat → List Char
  | [], _ => []
  | _ :: rest, skip + 1 => re_sub_ci kw rest skip
  | c :: rest, 0 =>
    if startsWithCI kw (c :: rest) then re_sub_ci kw rest (kw.length - 1)
    else c :: re_sub_ci kw rest 0

/-- `re.sub(r"\s\s+", " ", s)`: every maximal whitespace run of length at
least two becomes a single space; single whitespace characters are kept
as they are.  The Bool flag records being inside a collapsed run. -/
def collapse_ws : List Char → Bool → List Char
  | [], _ => []
  | c :: rest, true =>
    if isPySpace c then collapse_ws rest true
    else c :: collapse_ws rest false
  | c :: rest, false =>
    if isPySpace c then
      match rest with
      | [] => [c]
      | r :: _ =>
        if isPySpace r then ' ' :: collapse_ws rest true
        else c :: collapse_ws rest false
    else c :: collapse_ws rest false

/-- Python `s.lstrip().rstrip()` (ASCII whitespace). -/
def pyStrip (l : List Char) : List Char :=
  ((l.dropWhile isPySpace).reverse.dropWhile isPySpace).reverse

/-- `helpers/addresses.py, remove_keywords`: strip the housing-type keywords
`appartement`, `huis`, `kamer` case-insensitively (in that order), collapse
multiple whitespace, strip the ends. -/
def remove_keywords (s : String) : String :=
  let s1 := re_sub_ci "appartement".data s.data 0
  let s2 := re_sub_ci "huis".data s1 0
  let s3 := re_sub_ci "kamer".data s2 0
  String.mk (pyStrip (collapse_ws s3 false))

/-- A geocoded location: the `(latitude, longitude)` pair actually read off
the geopy `Location` object.  Coordinates are modelled as rationals. -/
structure GeoPoint where
  latitude : Rat
  longitude : Rat
deriving DecidableEq

/-- The external Nominatim geocoder collaborator: a free-text query and a
structured postal-code query each return zero or one location.  (The
`RateLimiter` wrapper only spaces calls in time and is not modelled.) -/
structure Geolocator where
  geocodeText : String → Option GeoPoint
  geocodePostal : String → Option GeoPoint

/-- `helpers/addresses.py, parse_address_str`: clean the address, but if a
zipcode occurs in the original string, geocode the zipcode as a structured
postal-code + country query instead of the cleaned free text. -/
def parse_address_str (g : Geolocator) (s : String) : Option GeoPoint :=
  let cleaned_s := remove_keywords s
  match extract_zipcode s with
  | some zipcode => g.geocodePostal zipcode
  | none => g.geocodeText cleaned_s

/-- The two geopy Earth-distance formulas (external library functions),
as collaborator parameters returning kilometers. -/
structure DistanceMethods where
  geodesic : GeoPoint → GeoPoint → Rat
  great_circle : GeoPoint → GeoPoint → Rat

/-- `calculators.py`, the `METHOD_MAPPING` dict lookup; `none` models the
`KeyError` a dict raises for an unknown method name. -/
def METHOD_MAPPING (m : DistanceMethods) (method : String) :
    Option (GeoPoint → GeoPoint → Rat) :=
  if method == "geodesic" then some m.geodesic
  else if method == "great_circle" then some m.great_circle
  else none

/-- `calculators.py, calculate_distance`: select the method and apply it to
the two coordinate pairs. -/
def calculate_distance (m : DistanceMethods) (geo1 geo2 : GeoPoint)
    (method : String := "geodesic") : Option Rat :=
  match METHOD_MAPPING m method with
  | some method_func => some (method_func geo1 geo2)
  | none => none

/-- One row of the distance-cache CSV: columns `route` and `distance`.
The `route` column holds the textual encoding of the address 2-tuple. -/
structure CacheRow where
  route : String
  distance : Rat
deriving DecidableEq

/-- Python's quote character, as used by `repr` on these strings. -/
def pyQuote : Char := '\x27'

/-- `repr` of an address string as it appears inside `str((addr1, addr2))`
(addresses are assumed to contain no quote or escape-worthy characters). -/
def pyRepr (s : String) : String :=
  String.singleton pyQuote ++ s ++ String.singleton pyQuote

/-- `str((addr1, addr2))`, the literal route key stored in and matched
against the cache's `route` column. -/
def route_str (addr1 addr2 : String) : String :=
  "(" ++ pyRepr addr1 ++ ", " ++ pyRepr addr2 ++ ")"

/-- The cache-hit test of `calculate_distance_addrs`, line 71: the row's
`route` equals the tuple string of `(addr1, addr2)` or of `(addr2, addr1)`. -/
def cache_match (addr1 addr2 : String) (r : CacheRow) : Bool :=
  r.route == route_str addr1 addr2 || r.route == route_str addr2 addr1

/-- Lines 70-73 of `calculators.py`: if the cache has rows, filter the rows
matching either ordering of the pair and return the first one's distance. -/
def cache_lookup (cache_df : List CacheRow) (addr1 addr2 : String) : Option Rat :=
  if 0 < cache_df.length then
    match (cache_df.filter (cache_match addr1 addr2)).head? with
    | some rel_row => some rel_row.distance
    | none => none
  else none

/-- Lines 51-54 of `calculators.py`: replace the address by its zipcode when
one can be extracted. -/
def simplify_addr (addr : String) : String :=
  match extract_zipcode addr with
  | some z => z
  | none => addr

/-- The observable outcome of one `calculate_distance_addrs` call:
`result` is the returned value (`.error` = an uncaught Python exception,
`.ok none` = `return None`), `file` the state of the cache file after the
call (`none` = the file does not exist), and `geocode_calls` the number of
geocoder queries issued. -/
structure DistCallResult where
  result : Except String (Option Rat)
  file : Option (List CacheRow)
  geocode_calls : Nat

/-- `calculators.py, calculate_distance_addrs`, embedded with the cache file
(`file`) as explicit state.  `cache_enabled` models a non-None
`cache_filepath`; a missing cache file is created empty before the lookup. -/
def calculate_distance_addrs (g : Geolocator) (m : DistanceMethods)
    (addr1? addr2? : Option String) (method : String)
    (cache_enabled : Bool) (file : Option (List CacheRow)) : DistCallResult :=
  match addr1?, addr2? with
  | some a1, some a2 =>
    let addr1 := simplify_addr a1
    let addr2 := simplify_addr a2
    let file1 : Option (List CacheRow) :=
      if cache_enabled then
        match file with
        | none => some []
        | some rows => some rows
      else file
    let hit : Option Rat :=
      if cache_enabled then cache_lookup (file1.getD []) addr1 addr2 else none
    match hit with
    | some d => ⟨Except.ok (some d), file1, 0⟩
    | none =>
      let addr1_geo := parse_address_str g addr1
      let addr2_geo := parse_address_str g addr2
      match addr1_geo, addr2_geo with
      | some geo1, some geo2 =>
        match calculate_distance m geo1 geo2 method with
        | some distance =>
          let file2 :=
            if cache_enabled then
              some (file1.getD [] ++ [⟨route_str addr1 addr2, distance⟩])
            else file1
          ⟨Except.ok (some distance), file2, 2⟩
        | none => ⟨Except.error "KeyError", file1, 2⟩
      | _, _ => ⟨Except.ok none, file1, 2⟩
  | _, _ => ⟨Except.ok none, file, 0⟩

/-- A sub-element of an ad element as selenium exposes it: its text content
and its `href` attribute (`get_attribute` may return `None`). -/
structure SubEl where
  text : String
  href : Option String

/-- One ad element: its text and its `find_element_by_xpath` lookup, which
either finds a sub-element or raises `NoSuchElementException` (`none`). -/
structure AdEl where
  text : String
  sub : String → Option SubEl

/-- The list comprehension
`[el.find_element_by_xpath(xpath_str) for el in ad_els]`: left to right;
the first `NoSuchElementException` aborts the whole comprehension. -/
def traverseSub : List AdEl → String → Option (List SubEl)
  | [], _ => some []
  | el :: rest, xpath_str =>
    match el.sub xpath_str with
    | some s =>
      match traverseSub rest xpath_str with
      | some ss => some (s :: ss)
      | none => none
    | none => none

/-- The body of the per-field loop of `scrape_page` (lines 211-220): collect
the sub-elements of every ad element; read `href` for the `ad_url` field and
the text for every other field; on `NoSuchElementException` fill the whole
column with `None` values, one per ad element. -/
def scrape_field (ad_els : List AdEl) (element xpath_str : String) :
    List (Option String) :=
  match traverseSub ad_els xpath_str with
  | some ad_sub_elements =>
    if element == "ad_url" then ad_sub_elements.map (fun el => el.href)
    else ad_sub_elements.map (fun el => some el.text)
  | none => List.replicate ad_els.length none

/-- `scraper_core.py, Scraper.scrape_page`: filter out empty ad elements,
fail (`RuntimeError`) if none remain, extract every requested field, and
assert that all per-field lists have the same length (`len(set(...)) == 1`;
an `AssertionError` is modelled as the second `.error`). -/
def scrape_page (ad_obj_mapping : List (String × String))
    (page_ad_els : List AdEl) :
    Except String (List (String × List (Option String))) :=
  let ad_els := page_ad_els.filter (fun el => el.text != "")
  if ad_els.length == 0 then Except.error "No ad elements found"
  else
    let result_dict := ad_obj_mapping.map
      (fun kv => (kv.1, scrape_field ad_els kv.1 kv.2))
    let check_values := result_dict.map (fun kv => kv.2.length)
    if check_values.dedup.length == 1 then Except.ok result_dict
    else Except.error "Not all lists have the same lengths"

/-- The part of the rendered page `scrape_all_pages` observes: the ad
elements and how many elements match the `next_button` xpath. -/
structure Page where
  ad_els : List AdEl
  next_button_count : Nat

/-- The site as the walker sees it: the page rendered after `n` successful
next-page clicks. -/
structure Site where
  pages : Nat → Page

/-- `scraper_core.py, Scraper.get_next_button_el`: `None` when no element
matches the next-button xpath, `None` when debug mode is on, otherwise the
first matching element (modelled as `()`). -/
def get_next_button_el (p : Page) (debug_mode : Bool) : Option Unit :=
  if p.next_button_count == 0 then none
  else if debug_mode then none
  else some ()

/-- `all_results.get(key, [])` on the accumulated results dict. -/
def dictGet (d : List (String × List (Option String))) (k : String) :
    List (Option String) :=
  match d.find? (fun kv => kv.1 == k) with
  | some kv => kv.2
  | none => []

/-- `all_results[key] = v` on the accumulated results dict: overwrite in
place if the key exists, else append it (Python dict insertion order). -/
def dictSet (d : List (String × List (Option String))) (k : String)
    (v : List (Option String)) : List (String × List (Option String)) :=
  if d.any (fun kv => kv.1 == k) then
    d.map (fun kv => if kv.1 == k then (k, v) else kv)
  else d ++ [(k, v)]

/-- Lines 348-349 of `scraper_core.py`: fold the current page's results into
the accumulator, `all_results[key] = all_results.get(key, []) + current[key]`. -/
def merge_results (all_results current_results :
    List (String × List (Option String))) :
    List (String × List (Option String)) :=
  current_results.foldl
    (fun acc kv => dictSet acc kv.1 (dictGet acc kv.1 ++ kv.2)) all_results

/-- The `while new_button_exists` loop of `scrape_all_pages`, with explicit
fuel (`none` = the loop was still running after `fuel` iterations).
`clickFails n` tells whether the `click_next_button()` call made on page `n`
exhausts its retries and raises; on success the driver shows page `n + 1`.
The `Nat` paired with the final results counts the next-page clicks made
(the final value of `current_page`). -/
def scrape_pages_go (site : Site) (mapping : List (String × String))
    (debug_mode : Bool) (clickFails : Nat → Bool) :
    Nat → Nat → List (String × List (Option String)) →
    Option (Except String (List (String × List (Option String)) × Nat))
  | 0, _, _ => none
  | fuel + 1, current_page, all_results =>
    match scrape_page mapping (site.pages current_page).ad_els with
    | Except.error e => some (Except.error e)
    | Except.ok current_results =>
      let all_results2 := merge_results all_results current_results
      match get_next_button_el (site.pages current_page) debug_mode with
      | none => some (Except.ok (all_results2, current_page))
      | some _ =>
        if clickFails current_page then
          some (Except.error "Max retries reached for clicking next button")
        else scrape_pages_go site mapping debug_mode clickFails fuel
          (current_page + 1) all_results2

/-- `scraper_core.py, Scraper.scrape_all_pages`: run the page loop from the
start URL with an empty accumulator. -/
def scrape_all_pages (site : Site) (mapping : List (String × String))
    (debug_mode : Bool) (clickFails : Nat → Bool) (fuel : Nat) :
    Option (Except String (List (String × List (Option String)) × Nat)) :=
  scrape_pages_go site mapping debug_mode clickFails fuel 0 []

/-- What one click attempt of `click_next_button` observes: either an
exception before/at the click (`AttributeError`/`TimeoutException`, no
navigation, URL unchanged), or the URL the driver shows after the click and
the `wait_time` sleep. -/
inductive ClickOutcome where
  | exn : ClickOutcome
  | goto : String → ClickOutcome

/-- The browser environment for `click_next_button`: `netloc` is
`urlparse(url).netloc`, and `outcome k` is what the `k`-th click attempt
(counted across retries from 0) observes. -/
structure ClickEnv where
  netloc : String → String
  outcome : Nat → ClickOutcome

/-- The observable end of a `click_next_button` call tree: normal return or
the permanent `RuntimeError("Max retries reached ...")`, each carrying the
total number of click attempts made and the driver URL at that point. -/
inductive ClickResult where
  | success : Nat → String → ClickResult
  | maxRetriesReached : Nat → String → ClickResult
deriving DecidableEq

/-- Number of click attempts made before the call tree ended. -/
def ClickResult.attempts : ClickResult → Nat
  | ClickResult.success n _ => n
  | ClickResult.maxRetriesReached n _ => n

/-- Did the call tree end in the permanent failure? -/
def ClickResult.isFatal : ClickResult → Bool
  | ClickResult.success _ _ => false
  | ClickResult.maxRetriesReached _ _ => true

/-- `scraper_core.py, Scraper.click_next_button`: attempt the click; a raised
exception, an unchanged URL, or a URL whose netloc differs from the scrape's
root URL counts as a failure; on failure retry while
`current_retry + 1 <= max_retries`, else fail permanently.  Exactly as in
the source, the recursive call passes only `current_retry + 1`, so
`max_retries` and `wait_time` revert to their defaults (5 and 2) from the
first retry on.  `url` is the driver URL at call time (`old_url`) and `k`
the index of this attempt in `env.outcome`; `wait_time` only feeds sleeps.
-/
def click_next_button (env : ClickEnv) (root_url url : String) (k : Nat)
    (current_retry : Nat := 0) (max_retries : Nat := 5)
    (wait_time : Nat := 2) : ClickResult :=
  match env.outcome k with
  | ClickOutcome.exn =>
    if current_retry + 1 ≤ max_retries then
      click_next_button env root_url url (k + 1) (current_retry + 1)
    else ClickResult.maxRetriesReached (k + 1) url
  | ClickOutcome.goto new_url =>
    if new_url == url || !(env.netloc new_url == root_url) then
      if current_retry + 1 ≤ max_retries then
        click_next_button env root_url new_url (k + 1) (current_retry + 1)
      else ClickResult.maxRetriesReached (k + 1) new_url
    else ClickResult.success (k + 1) new_url
termination_by
  (if current_retry + 1 ≤ max_retries then 1 else 0) +
  (if current_retry + 1 ≤ 5 then 5 - current_retry else 0)
decreasing_by
  all_goals
    rename_i h
    simp only [if_pos h]
    split
    all_goals split
    all_goals omega

/-- Does the `k`-th attempt count as a failure when the driver URL before it
is `old_url`?  (The disjunction mirrors the two `RuntimeError` checks plus
the caught exceptions.) -/
def outcomeFails (env : ClickEnv) (root_url old_url : String) (k : Nat) : Bool :=
  match env.outcome k with
  | ClickOutcome.exn => true
  | ClickOutcome.goto new_url => new_url == old_url || !(env.netloc new_url == root_url)

/-- Click environment in which every attempt times out
(`TimeoutException` on every try; the URL never changes). -/
def envAllExn : ClickEnv := ⟨fun _ => "", fun _ => ClickOutcome.exn⟩

/-- Click environment: attempts 0 and 1 time out, attempt 2 navigates to the
next Pararius results page on the same netloc. -/
def envThirdOk : ClickEnv :=
  ⟨fun _ => "www.pararius.nl",
   fun k =>
     if k < 2 then ClickOutcome.exn
     else ClickOutcome.goto "https://www.pararius.nl/huurwoningen/utrecht/page-2"⟩

/-- Geolocator that resolves nothing. -/
def geoNone : Geolocator := ⟨fun _ => none, fun _ => none⟩

/-- Geolocator with fixed demo coordinates. -/
def geoDemo : Geolocator :=
  ⟨fun _ => some ⟨52, 5⟩, fun _ => some ⟨521 / 10, 51 / 10⟩⟩

/-- Demo distance formulas: geodesic always 1 km, great-circle 100 km. -/
def methodsDemo : DistanceMethods := ⟨fun _ _ => 1, fun _ _ => 100⟩

/-- An ad element whose sub-element lookup always succeeds. -/
def adComplete : AdEl := ⟨"Nice house", fun _ => some ⟨"t", some "u"⟩⟩

/-- An ad element whose sub-element lookup always raises
`NoSuchElementException`. -/
def adMissing : AdEl := ⟨"Ad text", fun _ => none⟩

/-- A two-field selector mapping. -/
def demoMapping : List (String × String) :=
  [("ad_title", "xp1"), ("price", "xp2")]

/-- The page result `demoMapping` extracts from the one-ad demo page. -/
def demoResult : List (String × List (Option String)) :=
  [("ad_title", [some "t"]), ("price", [some "t"])]

/-- Demo site showing the same one-ad page forever; the next-page element is
present in the DOM of every page. -/
def demoSite : Site := ⟨fun _ => ⟨[adComplete], 1⟩⟩

theorem upper_not_space {c : Char} (h : isUpperAscii c = true) :
    isPySpace c = false := by
  simp only [isUpperAscii, Bool.and_eq_true, decide_eq_true_eq] at h
  simp only [isPySpace, Bool.or_eq_false_iff, decide_eq_false_iff_not]
  omega

theorem digit_not_space {c : Char} (h : isDigitAscii c = true) :
    isPySpace c = false := by
  simp only [isDigitAscii, Bool.and_eq_true, decide_eq_true_eq] at h
  simp only [isPySpace, Bool.or_eq_false_iff, decide_eq_false_iff_not]
  omega

theorem takeWhile_append_all {p : Char → Bool} {l1 : List Char}
    (h : ∀ c ∈ l1, p c = true) (l2 : List Char) :
    (l1 ++ l2).takeWhile p = l1 ++ l2.takeWhile p := by
  induction l1 with
  | nil => simp
  | cons c rest ih =>
    have hc : p c = true := h c (List.mem_cons_self c rest)
    simp only [List.cons_append, List.takeWhile_cons, hc, if_true]
    rw [ih (fun x hx => h x (List.mem_cons_of_mem c hx))]

theorem dropWhile_append_all {p : Char → Bool} {l1 : List Char}
    (h : ∀ c ∈ l1, p c = true) (l2 : List Char) :
    (l1 ++ l2).dropWhile p = l2.dropWhile p := by
  induction l1 with
  | nil => simp
  | cons c rest ih =>
    have hc : p c = true := h c (List.mem_cons_self c rest)
    simp only [List.cons_append, List.dropWhile_cons, hc, if_true]
    exact ih (fun x hx => h x (List.mem_cons_of_mem c hx))

theorem matchZipAt_cons_none {c : Char} (l : List Char)
    (h : isDigitAscii c = false) : matchZipAt (c :: l) = none := by
  match l with
  | [] => rfl
  | [_] => rfl
  | [_, _] => rfl
  | a :: b :: d :: rest => simp [matchZipAt, h]

theorem findFirstZip_append_nodigit {p : List Char}
    (hp : ∀ c ∈ p, isDigitAscii c = false) (l : List Char) :
    findFirstZip (p ++ l) = findFirstZip l := by
  induction p with
  | nil => simp
  | cons c rest ih =>
    have hc := hp c (List.mem_cons_self c rest)
    rw [List.cons_append, findFirstZip,
      matchZipAt_cons_none (rest ++ l) hc]
    exact ih (fun x hx => hp x (List.mem_cons_of_mem c hx))

theorem matchZipAt_pattern {d1 d2 d3 d4 u1 u2 : Char} {ws : List Char}
    (hd1 : isDigitAscii d1 = true) (hd2 : isDigitAscii d2 = true)
    (hd3 : isDigitAscii d3 = true) (hd4 : isDigitAscii d4 = true)
    (hws : ∀ c ∈ ws, isPySpace c = true)
    (hu1 : isUpperAscii u1 = true) (hu2 : isUpperAscii u2 = true)
    (suf : List Char) :
    matchZipAt (d1 :: d2 :: d3 :: d4 :: (ws ++ u1 :: u2 :: suf)) =
      some (d1 :: d2 :: d3 :: d4 :: (ws ++ [u1, u2])) := by
  rw [matchZipAt]
  rw [dropWhile_append_all hws, takeWhile_append_all hws]
  rw [List.dropWhile_cons, List.takeWhile_cons, upper_not_space hu1]
  simp [hd1, hd2, hd3, hd4, hu1, hu2]

theorem matchZipAt_some_structure {l m : List Char}
    (h : matchZipAt l = some m) :
    ∃ d1 d2 d3 d4 ws u1 u2,
      m = d1 :: d2 :: d3 :: d4 :: (ws ++ [u1, u2]) ∧
      isDigitAscii d1 = true ∧ isDigitAscii d2 = true ∧
      isDigitAscii d3 = true ∧ isDigitAscii d4 = true ∧
      (∀ c ∈ ws, isPySpace c = true) ∧
      isUpperAscii u1 = true ∧ isUpperAscii u2 = true := by
  match l with
  | [] => simp [matchZipAt] at h
  | [_] => simp [matchZipAt] at h
  | [_, _] => simp [matchZipAt] at h
  | [_, _, _] => simp [matchZipAt] at h
  | d1 :: d2 :: d3 :: d4 :: rest =>
    rw [matchZipAt] at h
    split at h
    case isTrue hd =>
      simp only [Bool.and_eq_true] at hd
      obtain ⟨⟨⟨hd1, hd2⟩, hd3⟩, hd4⟩ := hd
      split at h
      case h_1 u1 u2 rest2 hdw =>
        split at h
        case isTrue hu =>
          simp only [Bool.and_eq_true] at hu
          obtain ⟨hu1, hu2⟩ := hu
          refine ⟨d1, d2, d3, d4, rest.takeWhile isPySpace, u1, u2, ?_,
            hd1, hd2, hd3, hd4, ?_, hu1, hu2⟩
          · exact (Option.some_injective _ h).symm
          · exact fun c hc => List.mem_takeWhile_imp hc
        case isFalse hu => simp at h
      case h_2 => simp at h
    case isFalse hd => simp at h

theorem findFirstZip_some_structure {l m : List Char}
    (h : findFirstZip l = some m) :
    ∃ l2, matchZipAt l2 = some m := by
  induction l with
  | nil => simp [findFirstZip] at h
  | cons c rest ih =>
    rw [findFirstZip] at h
    match hm : matchZipAt (c :: rest) with
    | some m2 => rw [hm] at h; exact ⟨c :: rest, hm.trans h⟩
    | none => rw [hm] at h; exact ih h

theorem zip_filter {d1 d2 d3 d4 u1 u2 : Char} {ws : List Char}
    (hd1 : isDigitAscii d1 = true) (hd2 : isDigitAscii d2 = true)
    (hd3 : isDigitAscii d3 = true) (hd4 : isDigitAscii d4 = true)
    (hws : ∀ c ∈ ws, isPySpace c = true)
    (hu1 : isUpperAscii u1 = true) (hu2 : isUpperAscii u2 = true) :
    (d1 :: d2 :: d3 :: d4 :: (ws ++ [u1, u2])).filter
      (fun c => !isPySpace c) = [d1, d2, d3, d4, u1, u2] := by
  have hwsf : ws.filter (fun c => !isPySpace c) = [] := by
    rw [List.filter_eq_nil_iff]
    intro c hc
    simp [hws c hc]
  simp [List.filter_cons, List.filter_append, digit_not_space hd1,
    digit_not_space hd2, digit_not_space hd3, digit_not_space hd4,
    upper_not_space hu1, upper_not_space hu2, hwsf]

theorem extract_zipcode_pattern {d1 d2 d3 d4 u1 u2 : Char} {p ws : List Char}
    (hp : ∀ c ∈ p, isDigitAscii c = false)
    (hd1 : isDigitAscii d1 = true) (hd2 : isDigitAscii d2 = true)
    (hd3 : isDigitAscii d3 = true) (hd4 : isDigitAscii d4 = true)
    (hws : ∀ c ∈ ws, isPySpace c = true)
    (hu1 : isUpperAscii u1 = true) (hu2 : isUpperAscii u2 = true)
    (suf : List Char) :
    extract_zipcode
      (String.mk (p ++ d1 :: d2 :: d3 :: d4 :: (ws ++ u1 :: u2 :: suf))) =
      some (String.mk [d1, d2, d3, d4, u1, u2]) := by
  have hdata : (String.mk (p ++ d1 :: d2 :: d3 :: d4 ::
      (ws ++ u1 :: u2 :: suf))).data =
      p ++ d1 :: d2 :: d3 :: d4 :: (ws ++ u1 :: u2 :: suf) := rfl
  rw [extract_zipcode, hdata, findFirstZip_append_nodigit hp, findFirstZip,
    matchZipAt_pattern hd1 hd2 hd3 hd4 hws hu1 hu2 suf]
  simp only [zip_filter hd1 hd2 hd3 hd4 hws hu1 hu2]

theorem extract_zipcode_idem {s z : String} (h : extract_zipcode s = some z) :
    extract_zipcode z = some z := by
  rw [extract_zipcode] at h
  match hf : findFirstZip s.data with
  | none => rw [hf] at h; simp at h
  | some m =>
    rw [hf] at h
    simp only [Option.some.injEq] at h
    obtain ⟨l2, hm⟩ := findFirstZip_some_structure hf
    obtain ⟨d1, d2, d3, d4, ws, u1, u2, hmeq, hd1, hd2, hd3, hd4, hws, hu1, hu2⟩ :=
      matchZipAt_some_structure hm
    subst hmeq
    rw [zip_filter hd1 hd2 hd3 hd4 hws hu1 hu2] at h
    subst h
    have hnil1 : ∀ c ∈ ([] : List Char), isDigitAscii c = false := by simp
    have hnil2 : ∀ c ∈ ([] : List Char), isPySpace c = true := by simp
    have := extract_zipcode_pattern hnil1 hd1 hd2 hd3 hd4 hnil2 hu1 hu2
      ([] : List Char)
    simpa using this

theorem traverseSub_some_length {ad_els : List AdEl} {x : String}
    {subs : List SubEl} (h : traverseSub ad_els x = some subs) :
    subs.length = ad_els.length := by
  induction ad_els generalizing subs with
  | nil =>
    simp only [traverseSub, Option.some.injEq] at h
    subst h; rfl
  | cons el rest ih =>
    rw [traverseSub] at h
    match hs : el.sub x with
    | none => rw [hs] at h; simp at h
    | some s =>
      rw [hs] at h
      match ht : traverseSub rest x with
      | none => rw [ht] at h; simp at h
      | some ss =>
        rw [ht] at h
        simp only [Option.some.injEq] at h
        subst h
        simp [ih ht]

theorem scrape_field_none {ad_els : List AdEl} {element xpath_str : String}
    (h : traverseSub ad_els xpath_str = none) :
    scrape_field ad_els element xpath_str =
      List.replicate ad_els.length none := by
  rw [scrape_field, h]

theorem scrape_field_length (ad_els : List AdEl) (element xpath_str : String) :
    (scrape_field ad_els element xpath_str).length = ad_els.length := by
  cases ht : traverseSub ad_els xpath_str with
  | none => simp [scrape_field, ht]
  | some subs =>
    simp only [scrape_field, ht]
    split <;> simp [traverseSub_some_length ht]

theorem scrape_page_ok_shape {m : List (String × String)} {a : List AdEl}
    {res : List (String × List (Option String))}
    (h : scrape_page m a = Except.ok res) :
    res = m.map (fun kv =>
      (kv.1, scrape_field (a.filter (fun el => el.text != "")) kv.1 kv.2)) := by
  rw [scrape_page] at h
  split at h
  · simp at h
  · dsimp only [] at h
    split at h
    · simpa using h.symm
    · simp at h

theorem scrape_page_ok_lengths {m : List (String × String)} {a : List AdEl}
    {res : List (String × List (Option String))}
    (h : scrape_page m a = Except.ok res) :
    ∀ kv ∈ res, kv.2.length = (a.filter (fun el => el.text != "")).length := by
  rw [scrape_page_ok_shape h]
  intro kv hkv
  simp only [List.mem_map] at hkv
  obtain ⟨p, hp, hpeq⟩ := hkv
  subst hpeq
  exact scrape_field_length _ _ _

theorem scrape_page_ok_keys {m : List (String × String)} {a : List AdEl}
    {res : List (String × List (Option String))}
    (h : scrape_page m a = Except.ok res) :
    res.map Prod.fst = m.map Prod.fst := by
  rw [scrape_page_ok_shape h, List.map_map]
  rfl

theorem scrape_page_ok_dedup {m : List (String × String)} {a : List AdEl}
    {res : List (String × List (Option String))}
    (h : scrape_page m a = Except.ok res) :
    ((res.map (fun kv => kv.2.length)).dedup).length = 1 := by
  rw [scrape_page] at h
  split at h
  · simp at h
  · dsimp only [] at h
    split at h
    case isTrue hc =>
      simp only [Except.ok.injEq] at h
      subst h
      simpa using hc
    case isFalse => simp at h

theorem scrape_page_empty {m : List (String × String)} {a : List AdEl}
    (h : (a.filter (fun el => el.text != "")).length = 0) :
    scrape_page m a = Except.error "No ad elements found" := by
  rw [scrape_page, if_pos (by simp [h])]

theorem dictGet_of_not_mem {d : List (String × List (Option String))}
    {k : String} (h : ∀ kv ∈ d, ¬(kv.1 = k)) : dictGet d k = [] := by
  unfold dictGet
  have hf : d.find? (fun kv => kv.1 == k) = none := by
    rw [List.find?_eq_none]
    intro kv hkv
    simp [h kv hkv]
  rw [hf]

theorem dictSet_of_not_mem {d : List (String × List (Option String))}
    {k : String} (v : List (Option String)) (h : ∀ kv ∈ d, ¬(kv.1 = k)) :
    dictSet d k v = d ++ [(k, v)] := by
  unfold dictSet
  have hc : d.any (fun kv => kv.1 == k) = false := by
    rw [List.any_eq_false]
    intro kv hkv
    simp [h kv hkv]
  rw [hc]
  simp

theorem merge_results_append :
    ∀ (cur acc : List (String × List (Option String))),
      (∀ kv ∈ cur, ∀ kv2 ∈ acc, ¬(kv2.1 = kv.1)) →
      (cur.map Prod.fst).Nodup →
      merge_results acc cur = acc ++ cur := by
  intro cur
  induction cur with
  | nil => intro acc _ _; simp [merge_results]
  | cons kv rest ih =>
    intro acc hdisj hnodup
    obtain ⟨k, v⟩ := kv
    have hknotacc : ∀ kv2 ∈ acc, ¬(kv2.1 = k) :=
      fun kv2 h2 => hdisj (k, v) (List.mem_cons_self _ _) kv2 h2
    rw [merge_results, List.foldl_cons]
    rw [show (((k, v) : String × List (Option String)).1) = k from rfl]
    rw [dictGet_of_not_mem hknotacc, List.nil_append,
      dictSet_of_not_mem v hknotacc]
    simp only [List.map_cons, List.nodup_cons, List.mem_map] at hnodup
    obtain ⟨hknotrest, hnodup2⟩ := hnodup
    have step : rest.foldl
        (fun acc kv => dictSet acc kv.1 (dictGet acc kv.1 ++ kv.2))
        (acc ++ [(k, v)]) = merge_results (acc ++ [(k, v)]) rest := rfl
    rw [step, ih (acc ++ [(k, v)]) ?_ hnodup2]
    · simp
    · intro kv3 h3 kv2 h2
      rcases List.mem_append.mp h2 with h2a | h2b
      · exact hdisj kv3 (List.mem_cons_of_mem _ h3) kv2 h2a
      · have : kv2 = (k, v) := by simpa using h2b
        subst this
        intro hk
        exact hknotrest ⟨kv3, h3, hk.symm⟩

theorem merge_results_nil {cur : List (String × List (Option String))}
    (h : (cur.map Prod.fst).Nodup) : merge_results [] cur = cur := by
  have := merge_results_append cur [] (by simp) h
  simpa using this

theorem cache_match_swap {a1 a2 : String} (r : CacheRow) :
    cache_match a2 a1 r = cache_match a1 a2 r := by
  unfold cache_match
  rw [Bool.or_comm]

theorem cache_lookup_found {rows : List CacheRow} {a1 a2 : String}
    (pre post : List CacheRow) (row : CacheRow)
    (hrows : rows = pre ++ row :: post)
    (hpre : ∀ r ∈ pre, cache_match a1 a2 r = false)
    (hrow : cache_match a1 a2 row = true) :
    cache_lookup rows a1 a2 = some row.distance := by
  subst hrows
  unfold cache_lookup
  rw [if_pos (by simp)]
  rw [List.filter_append,
    List.filter_eq_nil_iff.mpr (by intro r hr; simp [hpre r hr]),
    List.filter_cons_of_pos hrow]
  simp

theorem cache_lookup_none_filter {rows : List CacheRow} {a1 a2 : String}
    (h : cache_lookup rows a1 a2 = none) :
    ∀ r ∈ rows, cache_match a1 a2 r = false := by
  unfold cache_lookup at h
  by_cases hl : 0 < rows.length
  · rw [if_pos hl] at h
    match hf : (rows.filter (cache_match a1 a2)).head? with
    | some r => rw [hf] at h; simp at h
    | none =>
      have hnil : rows.filter (cache_match a1 a2) = [] :=
        List.head?_eq_none_iff.mp hf
      intro r hr
      by_contra hc
      have : r ∈ rows.filter (cache_match a1 a2) :=
        List.mem_filter.mpr ⟨hr, by simpa using hc⟩
      rw [hnil] at this
      simp at this
  · have : rows = [] := by
      cases rows with
      | nil => rfl
      | cons a l => simp at hl
    subst this
    intro r hr
    simp at hr

theorem click_allfail (env : ClickEnv) (root : String)
    (hfail : ∀ k u, outcomeFails env root u k = true) :
    ∀ (n r k : Nat) (url : String), r + n = 5 →
      ∃ u, click_next_button env root url k r 5 2 =
        ClickResult.maxRetriesReached (k + n + 1) u := by
  intro n
  induction n with
  | zero =>
    intro r k url hr
    rw [click_next_button]
    match ho : env.outcome k with
    | ClickOutcome.exn =>
      simp only [ho]
      rw [if_neg (by omega)]
      exact ⟨url, rfl⟩
    | ClickOutcome.goto new_url =>
      have hg := hfail k url
      simp only [outcomeFails, ho] at hg
      simp only [ho]
      rw [if_pos hg, if_neg (by omega)]
      exact ⟨new_url, rfl⟩
  | succ n ih =>
    intro r k url hr
    rw [click_next_button]
    match ho : env.outcome k with
    | ClickOutcome.exn =>
      simp only [ho]
      rw [if_pos (by omega : r + 1 ≤ 5)]
      obtain ⟨u, hu⟩ := ih (r + 1) (k + 1) url (by omega)
      have heq : k + 1 + n + 1 = k + (n + 1) + 1 := by omega
      rw [heq] at hu
      exact ⟨u, hu⟩
    | ClickOutcome.goto new_url =>
      have hg := hfail k url
      simp only [outcomeFails, ho] at hg
      simp only [ho]
      rw [if_pos hg, if_pos (by omega : r + 1 ≤ 5)]
      obtain ⟨u, hu⟩ := ih (r + 1) (k + 1) new_url (by omega)
      have heq : k + 1 + n + 1 = k + (n + 1) + 1 := by omega
      rw [heq] at hu
      exact ⟨u, hu⟩

theorem click_success (env : ClickEnv) (root u2 : String) :
    ∀ (j k r : Nat) (url : String), r + j ≤ 5 →
      (∀ i, i < j → env.outcome (k + i) = ClickOutcome.exn) →
      env.outcome (k + j) = ClickOutcome.goto u2 →
      (u2 == url) = false → (env.netloc u2 == root) = true →
      click_next_button env root url k r 5 2 =
        ClickResult.success (k + j + 1) u2 := by
  intro j
  induction j with
  | zero =>
    intro k r url hr hexn hgoto hne hnet
    have hg : env.outcome k = ClickOutcome.goto u2 := hgoto
    rw [click_next_button]
    simp only [hg]
    rw [if_neg (by simp [hne, hnet])]
  | succ j ih =>
    intro k r url hr hexn hgoto hne hnet
    have h0 : env.outcome k = ClickOutcome.exn := hexn 0 (by omega)
    rw [click_next_button]
    simp only [h0]
    rw [if_pos (by omega : r + 1 ≤ 5)]
    have hgoto2 : env.outcome (k + 1 + j) = ClickOutcome.goto u2 := by
      have heq : k + 1 + j = k + (j + 1) := by omega
      rw [heq]
      exact hgoto
    have hexn2 : ∀ i, i < j → env.outcome (k + 1 + i) = ClickOutcome.exn := by
      intro i hi
      have heq : k + 1 + i = k + (i + 1) := by omega
      rw [heq]
      exact hexn (i + 1) (by omega)
    have := ih (k + 1) (r + 1) url (by omega) hexn2 hgoto2 hne hnet
    rw [this]
    have heq : k + 1 + j + 1 = k + (j + 1) + 1 := by omega
    rw [heq]

/-- C3: `scrape_page` either returns a mapping whose per-field value lists
all have one common length (`len(set(len(v) for v in result.values())) == 1`)
or raises; in particular it raises when zero non-empty ad elements are found,
and a result with unequal per-field lengths is never returned. -/
theorem C3_extract_equal_lengths (m : List (String × String)) (a : List AdEl) :
    (∀ res, scrape_page m a = Except.ok res →
      ((res.map (fun kv => kv.2.length)).dedup).length = 1) ∧
    ((a.filter (fun el => el.text != "")).length = 0 →
      scrape_page m a = Except.error "No ad elements found") :=
  ⟨fun _ h => scrape_page_ok_dedup h, fun h => scrape_page_empty h⟩

/-- Witness for C3 at a concrete page: a successful one-ad extraction has
dedup-length one, and a page with no ad elements raises. -/
theorem C3_witness :
    ((demoResult.map (fun kv => kv.2.length)).dedup).length = 1 ∧
    scrape_page demoMapping [] = Except.error "No ad elements found" :=
  ⟨(C3_extract_equal_lengths demoMapping [adComplete]).1 demoResult rfl,
   (C3_extract_equal_lengths demoMapping []).2 rfl⟩

/-- C4: postal-code normalization is idempotent, insensitive to the internal
whitespace of the zipcode, and ignores surrounding text (a digit-free prefix
and an arbitrary suffix such as a trailing city name); strings without the
4-digit + 2-uppercase pattern (e.g. `123AB`, `foo`) yield no zipcode. -/
theorem C4_zipcode_normalization :
    (∀ s z : String, extract_zipcode s = some z → extract_zipcode z = some z) ∧
    (∀ (d1 d2 d3 d4 u1 u2 : Char) (p ws suf : List Char),
      (∀ c ∈ p, isDigitAscii c = false) →
      isDigitAscii d1 = true → isDigitAscii d2 = true →
      isDigitAscii d3 = true → isDigitAscii d4 = true →
      (∀ c ∈ ws, isPySpace c = true) →
      isUpperAscii u1 = true → isUpperAscii u2 = true →
      extract_zipcode
        (String.mk (p ++ d1 :: d2 :: d3 :: d4 :: (ws ++ u1 :: u2 :: suf))) =
        some (String.mk [d1, d2, d3, d4, u1, u2])) ∧
    extract_zipcode "123AB" = none ∧ extract_zipcode "foo" = none := by
  refine ⟨fun _ _ h => extract_zipcode_idem h,
    fun d1 d2 d3 d4 u1 u2 p ws suf hp h1 h2 h3 h4 hws h5 h6 =>
      extract_zipcode_pattern hp h1 h2 h3 h4 hws h5 h6 suf, rfl, rfl⟩

/-- Witness for C4: `"Laan 3531   AB Utrecht"` normalizes to `3531AB`, and
normalizing `3531AB` again returns it unchanged. -/
theorem C4_witness :
    extract_zipcode (String.mk ("Laan ".data ++ '3' :: '5' :: '3' :: '1' ::
      ([' ', ' ', ' '] ++ 'A' :: 'B' :: " Utrecht".data))) =
      some (String.mk ['3', '5', '3', '1', 'A', 'B']) ∧
    extract_zipcode (String.mk ['3', '5', '3', '1', 'A', 'B']) =
      some (String.mk ['3', '5', '3', '1', 'A', 'B']) := by
  have h1 := C4_zipcode_normalization.2.1 '3' '5' '3' '1' 'A' 'B'
    "Laan ".data [' ', ' ', ' '] " Utrecht".data
    (by decide) rfl rfl rfl rfl (by decide) rfl rfl
  exact ⟨h1, C4_zipcode_normalization.1 _ _ h1⟩

/-- C9: when a field's sub-element lookup raises `NoSuchElementException`,
the whole column is `None`-filled with one entry per ad element; every field
of a returned page result has length equal to the number of non-empty ad
elements, so the equal-length invariant holds even for unmatched selectors. -/
theorem C9_missing_field_filled_with_none :
    (∀ (ad_els : List AdEl) (element xpath_str : String),
      traverseSub ad_els xpath_str = none →
      scrape_field ad_els element xpath_str =
        List.replicate ad_els.length none) ∧
    (∀ (ad_els : List AdEl) (element xpath_str : String),
      (scrape_field ad_els element xpath_str).length = ad_els.length) ∧
    (∀ (m : List (String × String)) (a : List AdEl)
      (res : List (String × List (Option String))),
      scrape_page m a = Except.ok res →
      ∀ kv ∈ res, kv.2.length = (a.filter (fun el => el.text != "")).length) :=
  ⟨fun _ _ _ h => scrape_field_none h,
   fun a e x => scrape_field_length a e x,
   fun _ _ _ h => scrape_page_ok_lengths h⟩

/-- Witness for C9 at a concrete ad element whose selector matches nothing:
the column is `[none]`, of the same length as the ad list. -/
theorem C9_witness :
    scrape_field [adMissing] "price" "xp" = List.replicate 1 none ∧
    (scrape_field [adMissing] "price" "xp").length = 1 :=
  ⟨C9_missing_field_filled_with_none.1 [adMissing] "price" "xp" rfl,
   C9_missing_field_filled_with_none.2.1 [adMissing] "price" "xp"⟩

/-- C10: a `None` input address makes `calculate_distance_addrs` return
`None` immediately: the cache file is neither read nor created (its state is
unchanged, even a missing file stays missing) and no geocoding happens. -/
theorem C10_none_address_early_return (g : Geolocator) (m : DistanceMethods)
    (addr1? addr2? : Option String) (method : String) (cache_enabled : Bool)
    (file : Option (List CacheRow)) (h : addr1? = none ∨ addr2? = none) :
    calculate_distance_addrs g m addr1? addr2? method cache_enabled file =
      ⟨Except.ok none, file, 0⟩ := by
  rcases h with h | h
  · subst h; cases addr2? <;> rfl
  · subst h; cases addr1? <;> rfl

/-- Witness for C10 at a concrete call with caching enabled and no cache
file: the missing file is not created. -/
theorem C10_witness :
    calculate_distance_addrs geoDemo methodsDemo none (some "3531JB")
      "geodesic" true none = ⟨Except.ok none, none, 0⟩ :=
  C10_none_address_early_return geoDemo methodsDemo none (some "3531JB")
    "geodesic" true none (Or.inl rfl)

/-- C7: with debug mode on, the pagination loop of `scrape_all_pages`
terminates after extracting exactly page 0: `get_next_button_el` reports no
control even when a next-page element is present in the DOM, no next-page
click is made (the click counter stays 0), and the returned result holds
exactly the first page's rows. -/
theorem C7_debug_mode_single_page (site : Site)
    (mapping : List (String × String)) (clickFails : Nat → Bool) (fuel : Nat)
    (hfuel : 1 ≤ fuel) (hnodup : (mapping.map Prod.fst).Nodup)
    (first_results : List (String × List (Option String)))
    (hok : scrape_page mapping (site.pages 0).ad_els =
      Except.ok first_results) :
    scrape_all_pages site mapping true clickFails fuel =
      some (Except.ok (first_results, 0)) ∧
    ∀ p : Page, get_next_button_el p true = none := by
  have hbtn : ∀ p : Page, get_next_button_el p true = none := by
    intro p
    unfold get_next_button_el
    split
    · rfl
    · rfl
  refine ⟨?_, hbtn⟩
  obtain ⟨f, rfl⟩ : ∃ f, fuel = f + 1 := ⟨fuel - 1, by omega⟩
  rw [scrape_all_pages, scrape_pages_go, hok]
  simp only [hbtn (site.pages 0)]
  have hkeys : (first_results.map Prod.fst).Nodup := by
    rw [scrape_page_ok_keys hok]
    exact hnodup
  rw [merge_results_nil hkeys]

/-- Witness for C7: the demo site has a next-page element on every page
(`next_button_count = 1`), yet with debug mode on the walk stops after page
0 with zero clicks. -/
theorem C7_witness :
    scrape_all_pages demoSite demoMapping true (fun _ => false) 3 =
      some (Except.ok (demoResult, 0)) ∧
    get_next_button_el (demoSite.pages 0) true = none :=
  ⟨(C7_debug_mode_single_page demoSite demoMapping (fun _ => false) 3
      (by omega) (by decide) demoResult rfl).1,
   (C7_debug_mode_single_page demoSite demoMapping (fun _ => false) 3
      (by omega) (by decide) demoResult rfl).2 (demoSite.pages 0)⟩

/-- Counterexample to C1 as stated: with the default `max_retries = 5` and
every attempt failing (timeouts throughout), `click_next_button` raises the
permanent navigation failure only after 6 consecutive failed attempts, not
after exactly `maxRetries = 5`. -/
theorem C1_counterexample :
    (click_next_button envAllExn "www.pararius.nl"
      "https://www.pararius.nl/huurwoningen/utrecht/" 0).isFatal = true ∧
    (click_next_button envAllExn "www.pararius.nl"
      "https://www.pararius.nl/huurwoningen/utrecht/" 0).attempts ≠ 5 := by
  obtain ⟨u, hu⟩ := click_allfail envAllExn "www.pararius.nl"
    (fun k u => rfl) 5 0 0 "https://www.pararius.nl/huurwoningen/utrecht/"
    (by omega)
  have heq : click_next_button envAllExn "www.pararius.nl"
      "https://www.pararius.nl/huurwoningen/utrecht/" 0 =
      ClickResult.maxRetriesReached 6 u := hu
  rw [heq]
  exact ⟨rfl, by simp [ClickResult.attempts]⟩

/-- C1 (amended): for the default call (`current_retry = 0`,
`max_retries = 5`, `wait_time = 2`), if every attempt fails (URL unchanged
or off the root netloc, or an exception) the permanent navigation failure is
raised after exactly `max_retries + 1 = 6` consecutive failed attempts — one
initial attempt plus `max_retries` retries — and the call returns normally
if the URL changes to the root netloc on any attempt up to the 6th. -/
theorem C1_click_next_retry_bound (env : ClickEnv) (root url : String) :
    ((∀ k u, outcomeFails env root u k = true) →
      ∃ u, click_next_button env root url 0 =
        ClickResult.maxRetriesReached 6 u) ∧
    (∀ (j : Nat) (u2 : String), j + 1 ≤ 6 →
      (∀ i, i < j → env.outcome i = ClickOutcome.exn) →
      env.outcome j = ClickOutcome.goto u2 →
      (u2 == url) = false → (env.netloc u2 == root) = true →
      click_next_button env root url 0 = ClickResult.success (j + 1) u2) := by
  constructor
  · intro hfail
    have h := click_allfail env root hfail 5 0 0 url (by omega)
    simpa using h
  · intro j u2 hj hexn hgoto hne hnet
    have h := click_success env root u2 j 0 0 url (by omega)
      (fun i hi => by simpa using hexn i hi) (by simpa using hgoto) hne hnet
    simpa using h

/-- Witness for C1 (amended): all-failing attempts end fatally after 6
attempts, and an environment whose third attempt navigates on-site returns
success on attempt 3. -/
theorem C1_witness :
    (click_next_button envAllExn "www.pararius.nl" "https://a/1" 0).isFatal =
      true ∧
    (click_next_button envAllExn "www.pararius.nl" "https://a/1" 0).attempts =
      6 ∧
    click_next_button envThirdOk "www.pararius.nl"
      "https://www.pararius.nl/huurwoningen/utrecht/" 0 =
      ClickResult.success 3
        "https://www.pararius.nl/huurwoningen/utrecht/page-2" := by
  obtain ⟨u, hu⟩ := (C1_click_next_retry_bound envAllExn "www.pararius.nl"
    "https://a/1").1 (fun k u => rfl)
  refine ⟨by rw [hu]; rfl, by rw [hu]; rfl, ?_⟩
  exact (C1_click_next_retry_bound envThirdOk "www.pararius.nl"
    "https://www.pararius.nl/huurwoningen/utrecht/").2 2 _ (by omega)
    (fun i hi => by simp [envThirdOk, hi]) rfl rfl rfl

/-- C8: the recursive retry call passes only the incremented counter, so any
caller-supplied `max_retries` (and `wait_time`) is replaced by the defaults
(5 and 2) from the first retry on; hence for every `max_retries = m ≥ 1` the
permanent failure comes after exactly `1 + 5 = 6` attempts, independent of
`m`. -/
theorem C8_retry_budget_reverts_to_default (env : ClickEnv) (root url : String)
    (m w : Nat) (hm : 1 ≤ m)
    (hfail : ∀ k u, outcomeFails env root u k = true) :
    ∃ u, click_next_button env root url 0 0 m w =
      ClickResult.maxRetriesReached 6 u := by
  rw [click_next_button]
  match ho : env.outcome 0 with
  | ClickOutcome.exn =>
    simp only [ho]
    rw [if_pos (by omega : 0 + 1 ≤ m)]
    have h := click_allfail env root hfail 4 1 1 url (by omega)
    simpa using h
  | ClickOutcome.goto new_url =>
    have hg := hfail 0 url
    simp only [outcomeFails, ho] at hg
    simp only [ho]
    rw [if_pos hg, if_pos (by omega : 0 + 1 ≤ m)]
    have h := click_allfail env root hfail 4 1 1 new_url (by omega)
    simpa using h

/-- Witness for C8 at `max_retries = 3`, `wait_time = 9`: the failure still
comes after 6 attempts. -/
theorem C8_witness :
    (click_next_button envAllExn "www.jaap.nl" "https://www.jaap.nl/1"
      0 0 3 9).attempts = 6 ∧
    (click_next_button envAllExn "www.jaap.nl" "https://www.jaap.nl/1"
      0 0 3 9).isFatal = true := by
  obtain ⟨u, hu⟩ := C8_retry_budget_reverts_to_default envAllExn "www.jaap.nl"
    "https://www.jaap.nl/1" 3 9 (by omega) (fun k u => rfl)
  rw [hu]
  exact ⟨rfl, rfl⟩

theorem calc_hit {g : Geolocator} {m : DistanceMethods} {a1 a2 method : String}
    {rows : List CacheRow} {d : Rat}
    (h : cache_lookup rows (simplify_addr a1) (simplify_addr a2) = some d) :
    calculate_distance_addrs g m (some a1) (some a2) method true (some rows) =
      ⟨Except.ok (some d), some rows, 0⟩ := by
  simp [calculate_distance_addrs, h]

theorem calc_miss {g : Geolocator} {m : DistanceMethods}
    {a1 a2 method : String} {rows : List CacheRow} {g1 g2 : GeoPoint} {d : Rat}
    (hmiss : cache_lookup rows (simplify_addr a1) (simplify_addr a2) = none)
    (h1 : parse_address_str g (simplify_addr a1) = some g1)
    (h2 : parse_address_str g (simplify_addr a2) = some g2)
    (hd : calculate_distance m g1 g2 method = some d) :
    calculate_distance_addrs g m (some a1) (some a2) method true (some rows) =
      ⟨Except.ok (some d),
       some (rows ++ [⟨route_str (simplify_addr a1) (simplify_addr a2), d⟩]),
       2⟩ := by
  simp [calculate_distance_addrs, hmiss, h1, h2, hd]

/-- C2: once the cache holds a row `(route=(A,B), distance=d)` (addresses in
normalized form, no earlier row matching the pair), querying the reversed
pair `(B, A)` with the same cache returns `d` from the cache, performs no
geocoding call, and leaves the cache unchanged: the lookup compares the
stored route string against both orderings. -/
theorem C2_cache_lookup_symmetric (g : Geolocator) (m : DistanceMethods)
    (A B method : String) (d : Rat) (pre post : List CacheRow)
    (hpre : ∀ r ∈ pre,
      cache_match (simplify_addr B) (simplify_addr A) r = false) :
    calculate_distance_addrs g m (some B) (some A) method true
      (some (pre ++
        ⟨route_str (simplify_addr A) (simplify_addr B), d⟩ :: post)) =
      ⟨Except.ok (some d),
       some (pre ++
         ⟨route_str (simplify_addr A) (simplify_addr B), d⟩ :: post),
       0⟩ := by
  have hlook : cache_lookup
      (pre ++ ⟨route_str (simplify_addr A) (simplify_addr B), d⟩ :: post)
      (simplify_addr B) (simplify_addr A) = some d := by
    have h := cache_lookup_found pre post
      ⟨route_str (simplify_addr A) (simplify_addr B), d⟩ rfl hpre
      (by simp [cache_match])
    simpa using h
  exact calc_hit hlook

/-- Witness for C2: a cached station-to-street distance of 2 km is returned
for the reversed query without geocoding. -/
theorem C2_witness :
    calculate_distance_addrs geoDemo methodsDemo
      (some "Laan van Nieuw-Guinea Utrecht") (some "Utrecht Centraal Station")
      "geodesic" true
      (some ([] ++
        ⟨route_str (simplify_addr "Utrecht Centraal Station")
          (simplify_addr "Laan van Nieuw-Guinea Utrecht"), 2⟩ :: [])) =
      ⟨Except.ok (some 2),
       some ([] ++
         ⟨route_str (simplify_addr "Utrecht Centraal Station")
           (simplify_addr "Laan van Nieuw-Guinea Utrecht"), 2⟩ :: []),
       0⟩ :=
  C2_cache_lookup_symmetric geoDemo methodsDemo "Utrecht Centraal Station"
    "Laan van Nieuw-Guinea Utrecht" "geodesic" 2 [] []
    (fun r hr => absurd hr (List.not_mem_nil r))

/-- C5: when the call reaches geocoding (no cache hit) and either address
fails to resolve, `calculate_distance_addrs` returns `None` — a normal
absent value, not an exception. -/
theorem C5_unresolvable_address_absent (g : Geolocator) (m : DistanceMethods)
    (a1 a2 method : String) (cache_enabled : Bool)
    (file : Option (List CacheRow))
    (hmiss : cache_enabled = true →
      cache_lookup (file.getD []) (simplify_addr a1) (simplify_addr a2) =
        none)
    (hfail : parse_address_str g (simplify_addr a1) = none ∨
      parse_address_str g (simplify_addr a2) = none) :
    (calculate_distance_addrs g m (some a1) (some a2) method cache_enabled
      file).result = Except.ok none := by
  rcases hfail with hf | hf <;>
    cases hp1 : parse_address_str g (simplify_addr a1) <;>
    cases hp2 : parse_address_str g (simplify_addr a2) <;>
    cases cache_enabled <;>
    cases file <;>
    simp_all [calculate_distance_addrs, Option.getD]

/-- Witness for C5: `distanceBetween("alkdjdsa", "lkjasdl")` with a
geolocator that resolves nothing is `Absent`, not an error. -/
theorem C5_witness :
    (calculate_distance_addrs geoNone methodsDemo (some "alkdjdsa")
      (some "lkjasdl") "geodesic" true none).result = Except.ok none :=
  C5_unresolvable_address_absent geoNone methodsDemo "alkdjdsa" "lkjasdl"
    "geodesic" true none (fun _ => rfl) (Or.inl rfl)

/-- C6: a fresh distance computation appends exactly one row to the cache
(existing rows are kept verbatim, in order), and re-querying the same pair
against the resulting cache state — in either order — returns the same
distance from the cache with no geocoding. -/
theorem C6_cache_append_round_trip (g : Geolocator) (m : DistanceMethods)
    (A B method : String) (rows0 : List CacheRow) (g1 g2 : GeoPoint) (d : Rat)
    (hmiss : cache_lookup rows0 (simplify_addr A) (simplify_addr B) = none)
    (h1 : parse_address_str g (simplify_addr A) = some g1)
    (h2 : parse_address_str g (simplify_addr B) = some g2)
    (hd : calculate_distance m g1 g2 method = some d) :
    calculate_distance_addrs g m (some A) (some B) method true (some rows0) =
      ⟨Except.ok (some d),
       some (rows0 ++
         [⟨route_str (simplify_addr A) (simplify_addr B), d⟩]), 2⟩ ∧
    calculate_distance_addrs g m (some B) (some A) method true
      (some (rows0 ++
        [⟨route_str (simplify_addr A) (simplify_addr B), d⟩])) =
      ⟨Except.ok (some d),
       some (rows0 ++
         [⟨route_str (simplify_addr A) (simplify_addr B), d⟩]), 0⟩ ∧
    calculate_distance_addrs g m (some A) (some B) method true
      (some (rows0 ++
        [⟨route_str (simplify_addr A) (simplify_addr B), d⟩])) =
      ⟨Except.ok (some d),
       some (rows0 ++
         [⟨route_str (simplify_addr A) (simplify_addr B), d⟩]), 0⟩ := by
  have hfilter := cache_lookup_none_filter hmiss
  refine ⟨calc_miss hmiss h1 h2 hd, ?_, ?_⟩
  · have hlook : cache_lookup
        (rows0 ++ [⟨route_str (simplify_addr A) (simplify_addr B), d⟩])
        (simplify_addr B) (simplify_addr A) = some d := by
      have h := cache_lookup_found rows0 []
        ⟨route_str (simplify_addr A) (simplify_addr B), d⟩ rfl
        (fun r hr => by rw [cache_match_swap]; exact hfilter r hr)
        (by simp [cache_match])
      simpa using h
    exact calc_hit hlook
  · have hlook : cache_lookup
        (rows0 ++ [⟨route_str (simplify_addr A) (simplify_addr B), d⟩])
        (simplify_addr A) (simplify_addr B) = some d := by
      have h := cache_lookup_found rows0 []
        ⟨route_str (simplify_addr A) (simplify_addr B), d⟩ rfl
        hfilter (by simp [cache_match])
      simpa using h
    exact calc_hit hlook

/-- Witness for C6: station vs. zipcode `3531  JB` (normalized `3531JB`)
computes 1 km with 2 geocoder calls and appends one row; both re-query
orders then hit the cache. -/
theorem C6_witness :
    (calculate_distance_addrs geoDemo methodsDemo
      (some "Utrecht Centraal Station") (some "3531  JB") "geodesic" true
      (some [])).result = Except.ok (some 1) ∧
    (calculate_distance_addrs geoDemo methodsDemo (some "3531  JB")
      (some "Utrecht Centraal Station") "geodesic" true
      (some ([] ++ [⟨route_str (simplify_addr "Utrecht Centraal Station")
        (simplify_addr "3531  JB"), 1⟩]))).result = Except.ok (some 1) ∧
    (calculate_distance_addrs geoDemo methodsDemo (some "3531  JB")
      (some "Utrecht Centraal Station") "geodesic" true
      (some ([] ++ [⟨route_str (simplify_addr "Utrecht Centraal Station")
        (simplify_addr "3531  JB"), 1⟩]))).geocode_calls = 0 := by
  have h := C6_cache_append_round_trip geoDemo methodsDemo
    "Utrecht Centraal Station" "3531  JB" "geodesic" [] ⟨52, 5⟩
    ⟨521 / 10, 51 / 10⟩ 1 rfl rfl rfl rfl
  exact ⟨by rw [h.1], by rw [h.2.1], by rw [h.2.1]⟩
